import Mathlib

/-!
Verification of the Common Notary Apostille quote calculator and intake
form (`src/app.js`), together with the older duplicated calculator kept
in the repository (`src/unnamed/part_001`).

Monetary amounts are modelled as rationals (`ℚ`): every catalog rate is
a decimal constant and the engine combines them with `+`, `*` and `-`
only, so rational arithmetic captures the intended full-precision
computation, with rounding happening only at presentation.

The DOM-carried form state is modelled as an explicit `Selection`
record: each field holds what the corresponding `document.querySelector`
read in `calculateQuote` would return (`Option` for the `parseInt` /
checked-radio reads that can fail, `List String` for the sets of checked
checkboxes).
-/

namespace CommonApostille

/-! ## PricingCatalog (`PRICING`, src/app.js lines 5-91) -/

namespace PRICING

/-- `PRICING.apostille` (src/app.js lines 7-13): per-region base rates. -/
def apostille : String → Option ℚ
  | "nj" => some 447
  | "dmv" => some 397
  | "tn" => some 347
  | "swva" => some 297
  | "federal" => some 497
  | _ => none

/-- `PRICING.poa.base` (line 16). -/
def poa_base : ℚ := 115
/-- `PRICING.poa.perDoc` (line 18). -/
def poa_perDoc : ℚ := 25
/-- `PRICING.trust.base` (line 21). -/
def trust_base : ℚ := 125
/-- `PRICING.trust.perDoc` (line 23). -/
def trust_perDoc : ℚ := 35
/-- `PRICING.loan.base` (line 26). -/
def loan_base : ℚ := 80
/-- `PRICING.loan.perDoc` (line 27). -/
def loan_perDoc : ℚ := 15
/-- `PRICING.hospital.base` (line 30). -/
def hospital_base : ℚ := 100
/-- `PRICING.hospital.perDoc` (line 31). -/
def hospital_perDoc : ℚ := 25
/-- `PRICING.remote.base` (line 35): up to 4 hours included. -/
def remote_base : ℚ := 649
/-- `PRICING.remote.overagePerHour` (line 36). -/
def remote_overagePerHour : ℚ := 150

/-- `PRICING.recording.audio` (line 41). -/
def recording_audio : ℚ := 149
/-- `PRICING.recording.audio_video` (line 42). -/
def recording_audio_video : ℚ := 199
/-- `PRICING.recording.timestamp` (line 43): free with audio_video. -/
def recording_timestamp : ℚ := 49
/-- `PRICING.recording.same_day_delivery` (line 44). -/
def recording_same_day_delivery : ℚ := 75
/-- `PRICING.recording['24hr_delivery']` (line 45). -/
def recording_hr24_delivery : ℚ := 45
/-- `PRICING.recording.archive_monthly` (line 46). -/
def recording_archive_monthly : ℚ := 25
/-- `PRICING.recording.archive_yearly` (line 47). -/
def recording_archive_yearly : ℚ := 99

/-- `PRICING.complexity` (lines 50-55). -/
def complexity : String → Option ℚ
  | "heavy_exhibits" => some 99
  | "multi_party" => some 75
  | "interpreter" => some 75
  | "second_tech" => some 199
  | _ => none

/-- `PRICING.remoteUrgency` (lines 57-62). -/
def remoteUrgency : String → Option ℚ
  | "rush_booking" => some 125
  | "same_day_booking" => some 199
  | "after_hours" => some 150
  | "weekend_holiday" => some 199
  | _ => none

/-- `PRICING.certified_reporter.coordination` (line 65). -/
def certified_reporter_coordination : ℚ := 125

/-- `PRICING.urgency` (lines 72-76): standard urgency surcharges. -/
def urgency : String → Option ℚ
  | "standard" => some 0
  | "expedited" => some 75
  | "rush" => some 150
  | _ => none

/-- `PRICING.delivery` (lines 78-83): delivery surcharges. -/
def delivery : String → Option ℚ
  | "pickup" => some 0
  | "standard_mail" => some 15
  | "express" => some 35
  | "international" => some 75
  | _ => none

/-- `PRICING.location` (lines 85-89): location fees. -/
def location : String → Option ℚ
  | "office" => some 0
  | "mobile" => some 25
  | "hospital" => some 25
  | _ => none

/-- `PRICING.additionalDocDiscount` (line 90). -/
def additionalDocDiscount : ℚ := 15 / 100

end PRICING

/-! ## ServiceSelection: the form state read by `calculateQuote` -/

/-- The form state as `calculateQuote` (src/app.js lines 307-314) reads it.
`numDocsParsed` and `sessionHoursParsed` hold the result of JavaScript
`parseInt` on the raw input value (`none` for `NaN`); `urgencyChecked` and
`deliveryChecked` hold the value of the checked radio button, if any;
`addons` and `remoteUrgency` list the values of the checked checkboxes in
document order. -/
structure Selection where
  serviceType : String := ""
  region : String := ""
  numDocsParsed : Option Int := none
  urgencyChecked : Option String := none
  deliveryChecked : Option String := none
  locationType : String := ""
  sessionHoursParsed : Option Int := none
  addons : List String := []
  remoteUrgency : List String := []
  deriving DecidableEq, Repr

/-- `parseInt(numDocumentsInput.value) || 1` (line 310): `NaN` and `0` are
falsy and default to 1, any other integer (negative included) is kept. -/
def Selection.numDocs (sel : Selection) : Int :=
  match sel.numDocsParsed with
  | none => 1
  | some n => if n = 0 then 1 else n

/-- `document.querySelector('input[name="urgency"]:checked')?.value || 'standard'`
(line 311). -/
def Selection.urgency (sel : Selection) : String :=
  sel.urgencyChecked.getD "standard"

/-- `document.querySelector('input[name="delivery"]:checked')?.value || 'pickup'`
(line 312). -/
def Selection.delivery (sel : Selection) : String :=
  sel.deliveryChecked.getD "pickup"

/-- `parseInt(sessionHoursSelect?.value) || 4` (line 314). -/
def Selection.sessionHours (sel : Selection) : Int :=
  match sel.sessionHoursParsed with
  | none => 4
  | some n => if n = 0 then 4 else n

/-! ## Add-on helpers (src/app.js lines 430-488) -/

/-- Price contributed by one checked addon inside the
`selectedAddons.forEach` loop of `calculateRecordingAddons`
(src/app.js lines 435-457); `hasAudioVideo` is the flag computed at
line 433. Identifiers outside the if/else chain contribute nothing. -/
def recordingAddonPrice (hasAudioVideo : Bool) (value : String) : ℚ :=
  if value = "audio" then PRICING.recording_audio
  else if value = "audio_video" then PRICING.recording_audio_video
  else if value = "timestamp" then
    (if hasAudioVideo then 0 else PRICING.recording_timestamp)
  else if value = "same_day_delivery" then PRICING.recording_same_day_delivery
  else if value = "24hr_delivery" then PRICING.recording_hr24_delivery
  else if value = "archive_monthly" then PRICING.recording_archive_monthly
  else if value = "archive_yearly" then PRICING.recording_archive_yearly
  else 0

/-- `calculateRecordingAddons` (src/app.js lines 430-460) over the list of
checked addon checkbox values. -/
def calculateRecordingAddons (addons : List String) : ℚ :=
  let hasAudioVideo := addons.contains "audio_video"
  (addons.map (recordingAddonPrice hasAudioVideo)).sum

/-- `calculateComplexityAddons` (src/app.js lines 462-474): each checked
addon whose value has a (truthy, hence nonzero) entry in
`PRICING.complexity` contributes that entry. -/
def calculateComplexityAddons (addons : List String) : ℚ :=
  (addons.map (fun value => (PRICING.complexity value).getD 0)).sum

/-- `calculateRemoteUrgency` (src/app.js lines 476-488). -/
def calculateRemoteUrgency (remoteUrgency : List String) : ℚ :=
  (remoteUrgency.map (fun value => (PRICING.remoteUrgency value).getD 0)).sum

/-- `getRegionName` (src/app.js lines 490-499). -/
def getRegionName (region : String) : String :=
  if region = "nj" then "New Jersey"
  else if region = "dmv" then "DMV Area"
  else if region = "tn" then "Tennessee"
  else if region = "swva" then "Roanoke/SWVA"
  else if region = "federal" then "Federal"
  else region

/-! ## Quote (the object built by `calculateQuote`, src/app.js lines 316-332) -/

/-- The quote object assembled by `calculateQuote` (src/app.js lines 316-332). -/
structure Quote where
  serviceName : String
  basePrice : ℚ
  numDocs : Int
  additionalDocsPrice : ℚ
  sessionOveragePrice : ℚ
  recordingPrice : ℚ
  complexityPrice : ℚ
  urgencyPrice : ℚ
  bookingUrgencyPrice : ℚ
  deliveryPrice : ℚ
  locationPrice : ℚ
  urgency : String
  delivery : String
  locationType : String
  isRemoteService : Bool
  deriving DecidableEq, Repr

/-- `calculateQuote` (src/app.js lines 307-428): builds the quote object
from the current form state. The `switch` falls through for any
serviceType outside its cases, leaving the initialized quote unchanged. -/
def calculateQuote (sel : Selection) : Quote :=
  let numDocs := sel.numDocs
  let urgency := sel.urgency
  let delivery := sel.delivery
  let sessionHours := sel.sessionHours
  let quote : Quote :=
    { serviceName := ""
      basePrice := 0
      numDocs := numDocs
      additionalDocsPrice := 0
      sessionOveragePrice := 0
      recordingPrice := 0
      complexityPrice := 0
      urgencyPrice := 0
      bookingUrgencyPrice := 0
      deliveryPrice := 0
      locationPrice := 0
      urgency := urgency
      delivery := delivery
      locationType := sel.locationType
      isRemoteService := false }
  if sel.serviceType = "apostille" then
    let withBase :=
      if sel.region ≠ "" ∧ (PRICING.apostille sel.region).isSome then
        let basePrice := (PRICING.apostille sel.region).getD 0
        { quote with
            basePrice := basePrice
            additionalDocsPrice :=
              if numDocs > 1 then
                ((numDocs - 1 : Int) : ℚ) *
                  (basePrice * (1 - PRICING.additionalDocDiscount))
              else 0 }
      else quote
    { withBase with
        serviceName :=
          if sel.region ≠ "" then getRegionName sel.region ++ " Apostille"
          else "Apostille"
        urgencyPrice := (PRICING.urgency urgency).getD 0
        deliveryPrice := (PRICING.delivery delivery).getD 0 }
  else if sel.serviceType = "poa" then
    { quote with
        basePrice := PRICING.poa_base
        additionalDocsPrice :=
          if numDocs > 1 then ((numDocs - 1 : Int) : ℚ) * PRICING.poa_perDoc
          else 0
        locationPrice := (PRICING.location sel.locationType).getD 0
        serviceName := "Power of Attorney"
        urgencyPrice := (PRICING.urgency urgency).getD 0
        deliveryPrice := (PRICING.delivery delivery).getD 0 }
  else if sel.serviceType = "trust" then
    { quote with
        basePrice := PRICING.trust_base
        additionalDocsPrice :=
          if numDocs > 1 then ((numDocs - 1 : Int) : ℚ) * PRICING.trust_perDoc
          else 0
        locationPrice := (PRICING.location sel.locationType).getD 0
        serviceName := "Trust Notarization"
        urgencyPrice := (PRICING.urgency urgency).getD 0
        deliveryPrice := (PRICING.delivery delivery).getD 0 }
  else if sel.serviceType = "loan" then
    { quote with
        basePrice := PRICING.loan_base
        additionalDocsPrice :=
          if numDocs > 1 then ((numDocs - 1 : Int) : ℚ) * PRICING.loan_perDoc
          else 0
        locationPrice := (PRICING.location sel.locationType).getD 0
        serviceName := "Loan Signing"
        urgencyPrice := (PRICING.urgency urgency).getD 0
        deliveryPrice := (PRICING.delivery delivery).getD 0 }
  else if sel.serviceType = "hospital" then
    { quote with
        basePrice := PRICING.hospital_base
        additionalDocsPrice :=
          if numDocs > 1 then
            ((numDocs - 1 : Int) : ℚ) * PRICING.hospital_perDoc
          else 0
        serviceName := "Hospital/Nursing Home Notarization"
        urgencyPrice := (PRICING.urgency urgency).getD 0
        deliveryPrice := (PRICING.delivery delivery).getD 0 }
  else if sel.serviceType = "remote" then
    { quote with
        basePrice := PRICING.remote_base
        serviceName := "Remote Deposition Support"
        isRemoteService := true
        sessionOveragePrice :=
          if sessionHours > 4 then
            ((sessionHours - 4 : Int) : ℚ) * PRICING.remote_overagePerHour
          else 0
        recordingPrice := calculateRecordingAddons sel.addons
        complexityPrice := calculateComplexityAddons sel.addons
        bookingUrgencyPrice := calculateRemoteUrgency sel.remoteUrgency }
  else if sel.serviceType = "recording_only" then
    { quote with
        basePrice := 0
        serviceName := "Digital Recording (Add-on)"
        isRemoteService := true
        recordingPrice := calculateRecordingAddons sel.addons
        bookingUrgencyPrice := calculateRemoteUrgency sel.remoteUrgency }
  else if sel.serviceType = "certified_reporter" then
    { quote with
        basePrice := PRICING.certified_reporter_coordination
        serviceName := "Certified Reporter Coordination"
        isRemoteService := true
        bookingUrgencyPrice := calculateRemoteUrgency sel.remoteUrgency }
  else quote

/-- The total computed by `updateQuoteDisplay` (src/app.js lines 594-596). -/
def Quote.total (q : Quote) : ℚ :=
  q.basePrice + q.additionalDocsPrice + q.sessionOveragePrice +
    q.recordingPrice + q.complexityPrice + q.urgencyPrice +
    q.bookingUrgencyPrice + q.deliveryPrice + q.locationPrice

/-! ## Rendered quote lines (`updateQuoteDisplay`, src/app.js lines 501-598) -/

/-- One rendered quote line: its label text and the monetary amount it
shows. The `Documents (1)` line renders the text `Included`, which
charges nothing; it is modelled as amount 0. -/
structure LineItem where
  label : String
  amount : ℚ
  deriving DecidableEq, Repr

/-- A surcharge line of `updateQuoteDisplay`: shown (display flex) with
the given label exactly when its amount is positive, hidden (display
none) otherwise — the pattern used for the session-overage, recording,
complexity, urgency, booking-urgency, delivery and location lines. -/
def surchargeLine (label : String) (amount : ℚ) : List LineItem :=
  if amount > 0 then [⟨label, amount⟩] else []

/-- The documents line (src/app.js lines 506-518): hidden for remote
services; `Additional Documents (n-1)` with `additionalDocsPrice`
when `numDocs > 1`; otherwise `Documents (1)` marked `Included`. -/
def documentsSegment (q : Quote) : List LineItem :=
  if q.isRemoteService then []
  else if q.numDocs > 1 then
    [⟨"Additional Documents (" ++ toString (q.numDocs - 1) ++ ")",
      q.additionalDocsPrice⟩]
  else [⟨"Documents (1)", 0⟩]

/-- The ordered list of quote lines rendered by `updateQuoteDisplay`
(src/app.js lines 501-591), in display order. -/
def quoteLines (q : Quote) : List LineItem :=
  [⟨if q.serviceName = "" then "Base Service" else q.serviceName,
    q.basePrice⟩] ++
  documentsSegment q ++
  surchargeLine "Session Overage" q.sessionOveragePrice ++
  surchargeLine "Recording Add-ons" q.recordingPrice ++
  surchargeLine "Complexity Add-ons" q.complexityPrice ++
  surchargeLine
    (if q.urgency = "expedited" then "Expedited Processing"
     else "Rush Processing") q.urgencyPrice ++
  surchargeLine "Booking/Timing Fees" q.bookingUrgencyPrice ++
  surchargeLine
    (if q.delivery = "standard_mail" then "Standard Mail"
     else if q.delivery = "express" then "Express Shipping"
     else if q.delivery = "international" then "International Shipping"
     else "Delivery") q.deliveryPrice ++
  surchargeLine
    (if q.locationType = "mobile" then "Mobile Service Fee"
     else if q.locationType = "hospital" then "Hospital/Facility Fee"
     else "Location Fee") q.locationPrice

/-! ## Add-on exclusivity resolver (`handleAddonChange`, src/app.js lines 215-245) -/

/-- `handleAddonChange` (src/app.js lines 215-245) as a pure resolver over
the set of checked addon checkboxes. When the handler runs, the browser
has already applied the user's toggle of `value` to `checked`, so the
resolver first applies that toggle to `current` and then performs the
handler's unchecking of the mutually exclusive counterparts. -/
def handleAddonChange (current : Finset String) (value : String)
    (checked : Bool) : Finset String :=
  let s0 := if checked then insert value current else current.erase value
  let s1 :=
    if value = "audio" ∧ checked then s0.erase "audio_video"
    else if value = "audio_video" ∧ checked then s0.erase "audio"
    else s0
  let s2 :=
    if (value = "same_day_delivery" ∨ value = "24hr_delivery") ∧ checked then
      s1.erase
        (if value = "same_day_delivery" then "24hr_delivery"
         else "same_day_delivery")
    else s1
  let s3 :=
    if (value = "archive_monthly" ∨ value = "archive_yearly") ∧ checked then
      s2.erase
        (if value = "archive_monthly" then "archive_yearly"
         else "archive_monthly")
    else s2
  s3

/-! ## The older duplicated calculator (src/unnamed/part_001, lines 164-241) -/

/-- The quote object passed to `updateQuoteDisplay` by the older
calculator (src/unnamed/part_001 lines 229-240). -/
structure LegacyQuote where
  serviceName : String
  basePrice : ℚ
  numDocs : Int
  additionalDocsPrice : ℚ
  urgency : String
  urgencyPrice : ℚ
  delivery : String
  deliveryPrice : ℚ
  locationType : String
  locationPrice : ℚ
  deriving DecidableEq, Repr

/-- `calculateQuote` of the older duplicated calculator
(src/unnamed/part_001 lines 164-241). Unlike src/app.js it charges
urgency and delivery before the service-type switch, for every service
type. Its `PRICING` table (part_001 lines 5-48) agrees with src/app.js
on every key it declares, so the shared constants are reused. -/
def legacyCalculateQuote (sel : Selection) : LegacyQuote :=
  let numDocs := sel.numDocs
  let urgency := sel.urgency
  let delivery := sel.delivery
  let base : LegacyQuote :=
    { serviceName := ""
      basePrice := 0
      numDocs := numDocs
      additionalDocsPrice := 0
      urgency := urgency
      urgencyPrice := (PRICING.urgency urgency).getD 0
      delivery := delivery
      deliveryPrice := (PRICING.delivery delivery).getD 0
      locationType := sel.locationType
      locationPrice := 0 }
  if sel.serviceType = "apostille" then
    let withBase :=
      if sel.region ≠ "" ∧ (PRICING.apostille sel.region).isSome then
        let basePrice := (PRICING.apostille sel.region).getD 0
        { base with
            basePrice := basePrice
            additionalDocsPrice :=
              if numDocs > 1 then
                ((numDocs - 1 : Int) : ℚ) *
                  (basePrice * (1 - PRICING.additionalDocDiscount))
              else 0 }
      else base
    { withBase with
        serviceName :=
          if sel.region ≠ "" then getRegionName sel.region ++ " Apostille"
          else "Apostille" }
  else if sel.serviceType = "poa" then
    { base with
        basePrice := PRICING.poa_base
        additionalDocsPrice :=
          if numDocs > 1 then ((numDocs - 1 : Int) : ℚ) * PRICING.poa_perDoc
          else 0
        locationPrice := (PRICING.location sel.locationType).getD 0
        serviceName := "Power of Attorney" }
  else if sel.serviceType = "trust" then
    { base with
        basePrice := PRICING.trust_base
        additionalDocsPrice :=
          if numDocs > 1 then ((numDocs - 1 : Int) : ℚ) * PRICING.trust_perDoc
          else 0
        locationPrice := (PRICING.location sel.locationType).getD 0
        serviceName := "Trust Notarization" }
  else if sel.serviceType = "loan" then
    { base with
        basePrice := PRICING.loan_base
        additionalDocsPrice :=
          if numDocs > 1 then ((numDocs - 1 : Int) : ℚ) * PRICING.loan_perDoc
          else 0
        locationPrice := (PRICING.location sel.locationType).getD 0
        serviceName := "Loan Signing" }
  else if sel.serviceType = "hospital" then
    { base with
        basePrice := PRICING.hospital_base
        additionalDocsPrice :=
          if numDocs > 1 then
            ((numDocs - 1 : Int) : ℚ) * PRICING.hospital_perDoc
          else 0
        serviceName := "Hospital/Nursing Home Notarization" }
  else base

/-- The total computed by the older `updateQuoteDisplay`
(src/unnamed/part_001 lines 306-307). -/
def LegacyQuote.total (q : LegacyQuote) : ℚ :=
  q.basePrice + q.additionalDocsPrice + q.urgencyPrice +
    q.deliveryPrice + q.locationPrice

/-! ## Form step controller (src/app.js lines 186-193, 607-667) -/

/-- The multi-step form state: the `currentStep` tracker (src/app.js
line 143) together with the form field state. -/
structure FormState where
  currentStep : Nat
  selection : Selection
  deriving DecidableEq, Repr

/-- Modelled from the spec: the intake form markup (index.html) is not in
the repository, so the set of step-1 fields that are `[required]` and
visible follows §4.4's visibility policy — `serviceType` always, plus
`region` exactly when serviceType is apostille (`handleServiceTypeChange`,
src/app.js lines 270-271, shows the region group and sets
`regionSelect.required = true` only in the apostille case, and
`validateCurrentStep`, line 645, skips hidden fields). -/
def step1RequiredVisibleFields (sel : Selection) : List String :=
  ["serviceType"] ++ (if sel.serviceType = "apostille" then ["region"] else [])

/-- The string value of a step-1 form field. -/
def step1FieldValue (sel : Selection) : String → String
  | "serviceType" => sel.serviceType
  | "region" => sel.region
  | _ => ""

/-- `validateCurrentStep` at step 1 (src/app.js lines 638-667): returns
whether the step is valid together with the fields flagged with the
`error` class. The generic scan marks every visible required field with
an empty value; the special apostille check (line 657) additionally
marks `region` when serviceType is apostille and region is unset. -/
def validateStep1 (sel : Selection) : Bool × List String :=
  let missing :=
    (step1RequiredVisibleFields sel).filter
      (fun f => step1FieldValue sel f = "")
  let regionInvalid := sel.serviceType = "apostille" ∧ sel.region = ""
  (decide (missing = [] ∧ ¬ regionInvalid),
   if regionInvalid ∧ ¬ missing.contains "region" then missing ++ ["region"]
   else missing)

/-- The `.btn-next` click handler taken from step 1 (src/app.js lines
186-193): advance to `next` via `goToStep` only when
`validateCurrentStep` passes; otherwise the step is unchanged and the
offending fields carry the validation-failure signal. -/
def advanceFromStep1 (st : FormState) (next : Nat) : FormState × List String :=
  let v := validateStep1 st.selection
  if v.fst then ({ st with currentStep := next }, []) else (st, v.snd)

/-! ## Concrete scenario selections -/

/-- Scenario 1 of the spec: apostille, region nj, 3 documents, standard
urgency, pickup delivery. -/
def scenario1Selection : Selection :=
  { serviceType := "apostille"
    region := "nj"
    numDocsParsed := some 3
    urgencyChecked := some "standard"
    deliveryChecked := some "pickup" }

/-- Scenario 3 of the spec: remote deposition, 6 session hours,
audio_video recording, rush booking. -/
def scenario3Selection : Selection :=
  { serviceType := "remote"
    sessionHoursParsed := some 6
    addons := ["audio_video"]
    remoteUrgency := ["rush_booking"] }

/-! ## Helper lemmas -/

lemma urgency_getD_nonneg (u : String) : 0 ≤ (PRICING.urgency u).getD 0 := by
  unfold PRICING.urgency; split <;> norm_num

lemma delivery_getD_nonneg (d : String) : 0 ≤ (PRICING.delivery d).getD 0 := by
  unfold PRICING.delivery; split <;> norm_num

lemma location_getD_nonneg (l : String) : 0 ≤ (PRICING.location l).getD 0 := by
  unfold PRICING.location; split <;> norm_num

lemma complexity_getD_nonneg (v : String) : 0 ≤ (PRICING.complexity v).getD 0 := by
  unfold PRICING.complexity; split <;> norm_num

lemma remoteUrgency_getD_nonneg (v : String) :
    0 ≤ (PRICING.remoteUrgency v).getD 0 := by
  unfold PRICING.remoteUrgency; split <;> norm_num

lemma apostille_getD_nonneg (r : String) : 0 ≤ (PRICING.apostille r).getD 0 := by
  unfold PRICING.apostille; split <;> norm_num

lemma recordingAddonPrice_nonneg (b : Bool) (v : String) :
    0 ≤ recordingAddonPrice b v := by
  unfold recordingAddonPrice
  split_ifs <;>
    norm_num [PRICING.recording_audio, PRICING.recording_audio_video,
      PRICING.recording_timestamp, PRICING.recording_same_day_delivery,
      PRICING.recording_hr24_delivery, PRICING.recording_archive_monthly,
      PRICING.recording_archive_yearly]

lemma calculateRecordingAddons_nonneg (addons : List String) :
    0 ≤ calculateRecordingAddons addons := by
  unfold calculateRecordingAddons
  refine List.sum_nonneg fun x hx => ?_
  obtain ⟨v, _, rfl⟩ := List.mem_map.1 hx
  exact recordingAddonPrice_nonneg _ _

lemma calculateComplexityAddons_nonneg (addons : List String) :
    0 ≤ calculateComplexityAddons addons := by
  unfold calculateComplexityAddons
  refine List.sum_nonneg fun x hx => ?_
  obtain ⟨v, _, rfl⟩ := List.mem_map.1 hx
  exact complexity_getD_nonneg _

lemma calculateRemoteUrgency_nonneg (opts : List String) :
    0 ≤ calculateRemoteUrgency opts := by
  unfold calculateRemoteUrgency
  refine List.sum_nonneg fun x hx => ?_
  obtain ⟨v, _, rfl⟩ := List.mem_map.1 hx
  exact remoteUrgency_getD_nonneg _

lemma overage_term_nonneg {n : Int} (h : 4 < n) :
    0 ≤ ((n : ℚ) - 4) * PRICING.remote_overagePerHour := by
  have h4 : (4 : ℚ) ≤ (n : ℚ) := by exact_mod_cast h.le
  have hr : (0 : ℚ) ≤ PRICING.remote_overagePerHour := by
    norm_num [PRICING.remote_overagePerHour]
  nlinarith

lemma sum_surchargeLine (label : String) (a : ℚ) (h : 0 ≤ a) :
    ((surchargeLine label a).map LineItem.amount).sum = a := by
  unfold surchargeLine
  split_ifs with h'
  · simp
  · simp; linarith

lemma sum_documentsSegment (q : Quote)
    (hd : q.isRemoteService = true → q.additionalDocsPrice = 0)
    (hn : ¬ 1 < q.numDocs → q.additionalDocsPrice = 0) :
    ((documentsSegment q).map LineItem.amount).sum = q.additionalDocsPrice := by
  unfold documentsSegment
  split_ifs with h1 h2
  · simp [hd h1]
  · simp
  · simp [hn h2]

lemma sum_quoteLines (q : Quote)
    (h1 : 0 ≤ q.sessionOveragePrice) (h2 : 0 ≤ q.recordingPrice)
    (h3 : 0 ≤ q.complexityPrice) (h4 : 0 ≤ q.urgencyPrice)
    (h5 : 0 ≤ q.bookingUrgencyPrice) (h6 : 0 ≤ q.deliveryPrice)
    (h7 : 0 ≤ q.locationPrice)
    (hd : q.isRemoteService = true → q.additionalDocsPrice = 0)
    (hn : ¬ 1 < q.numDocs → q.additionalDocsPrice = 0) :
    ((quoteLines q).map LineItem.amount).sum = q.total := by
  unfold quoteLines Quote.total
  simp only [List.map_append, List.sum_append, List.map_cons, List.map_nil,
    List.sum_cons, List.sum_nil, sum_surchargeLine _ _ h1,
    sum_surchargeLine _ _ h2, sum_surchargeLine _ _ h3,
    sum_surchargeLine _ _ h4, sum_surchargeLine _ _ h5,
    sum_surchargeLine _ _ h6, sum_surchargeLine _ _ h7,
    sum_documentsSegment q hd hn]
  ring

lemma calculateQuote_sessionOverage_nonneg (sel : Selection) :
    0 ≤ (calculateQuote sel).sessionOveragePrice := by
  simp only [calculateQuote]
  split_ifs <;> simp
  rename_i h
  exact overage_term_nonneg h

lemma calculateQuote_recording_nonneg (sel : Selection) :
    0 ≤ (calculateQuote sel).recordingPrice := by
  simp only [calculateQuote]
  split_ifs <;> simp [calculateRecordingAddons_nonneg]

lemma calculateQuote_complexity_nonneg (sel : Selection) :
    0 ≤ (calculateQuote sel).complexityPrice := by
  simp only [calculateQuote]
  split_ifs <;> simp [calculateComplexityAddons_nonneg]

lemma calculateQuote_urgency_nonneg (sel : Selection) :
    0 ≤ (calculateQuote sel).urgencyPrice := by
  simp only [calculateQuote]
  split_ifs <;> simp [urgency_getD_nonneg]

lemma calculateQuote_booking_nonneg (sel : Selection) :
    0 ≤ (calculateQuote sel).bookingUrgencyPrice := by
  simp only [calculateQuote]
  split_ifs <;> simp [calculateRemoteUrgency_nonneg]

lemma calculateQuote_delivery_nonneg (sel : Selection) :
    0 ≤ (calculateQuote sel).deliveryPrice := by
  simp only [calculateQuote]
  split_ifs <;> simp [delivery_getD_nonneg]

lemma calculateQuote_location_nonneg (sel : Selection) :
    0 ≤ (calculateQuote sel).locationPrice := by
  simp only [calculateQuote]
  split_ifs <;> simp [location_getD_nonneg]

lemma calculateQuote_remote_adp (sel : Selection) :
    (calculateQuote sel).isRemoteService = true →
      (calculateQuote sel).additionalDocsPrice = 0 := by
  simp only [calculateQuote]
  split_ifs <;> simp

lemma calculateQuote_numDocs_adp (sel : Selection) :
    ¬ 1 < (calculateQuote sel).numDocs →
      (calculateQuote sel).additionalDocsPrice = 0 := by
  simp only [calculateQuote]
  split_ifs <;> simp_all

/-! ## Claim theorems -/

/-- C1: for every ServiceSelection, the total of the Quote produced by
the engine equals the sum of the amounts of its rendered line items
(base service, additional documents, session overage, recording
add-ons, complexity add-ons, standard urgency, booking/timing, delivery,
location). -/
theorem total_eq_sum_of_quoteLines (sel : Selection) :
    (calculateQuote sel).total =
      ((quoteLines (calculateQuote sel)).map LineItem.amount).sum :=
  (sum_quoteLines _ (calculateQuote_sessionOverage_nonneg sel)
    (calculateQuote_recording_nonneg sel)
    (calculateQuote_complexity_nonneg sel)
    (calculateQuote_urgency_nonneg sel)
    (calculateQuote_booking_nonneg sel)
    (calculateQuote_delivery_nonneg sel)
    (calculateQuote_location_nonneg sel)
    (calculateQuote_remote_adp sel)
    (calculateQuote_numDocs_adp sel)).symm

/-- C2: for each exclusivity group ({audio, audio_video},
{same_day_delivery, 24hr_delivery}, {archive_monthly, archive_yearly})
and every current addons set containing member B, resolving a toggle
that selects the other member A yields a set that contains A and does
not contain B. -/
theorem addon_exclusivity_resolution (cur : Finset String) (A B : String)
    (hAB : (A, B) ∈ [("audio", "audio_video"), ("audio_video", "audio"),
      ("same_day_delivery", "24hr_delivery"),
      ("24hr_delivery", "same_day_delivery"),
      ("archive_monthly", "archive_yearly"),
      ("archive_yearly", "archive_monthly")])
    (hB : B ∈ cur) :
    A ∈ handleAddonChange cur A true ∧ B ∉ handleAddonChange cur A true := by
  simp only [List.mem_cons, List.not_mem_nil, or_false,
    Prod.mk.injEq] at hAB
  rcases hAB with ⟨rfl, rfl⟩ | ⟨rfl, rfl⟩ | ⟨rfl, rfl⟩ | ⟨rfl, rfl⟩ |
    ⟨rfl, rfl⟩ | ⟨rfl, rfl⟩ <;>
    simp [handleAddonChange, Finset.mem_erase, Finset.mem_insert]

theorem addon_exclusivity_resolution_witness :
    (("audio", "audio_video") ∈ [("audio", "audio_video"),
        ("audio_video", "audio"),
        ("same_day_delivery", "24hr_delivery"),
        ("24hr_delivery", "same_day_delivery"),
        ("archive_monthly", "archive_yearly"),
        ("archive_yearly", "archive_monthly")] ∧
      "audio_video" ∈ ({"audio_video", "timestamp"} : Finset String)) ∧
    ("audio" ∈ handleAddonChange {"audio_video", "timestamp"} "audio" true ∧
      "audio_video" ∉
        handleAddonChange {"audio_video", "timestamp"} "audio" true) :=
  ⟨⟨by decide, by decide⟩,
    addon_exclusivity_resolution {"audio_video", "timestamp"} "audio"
      "audio_video" (by decide) (by decide)⟩

/-- C3: whenever audio_video is in the addons set, timestamp contributes
nothing to the recording add-ons sum (it stays in the set but is priced
at 0); without audio_video, timestamp contributes its full catalog rate
of 49. -/
theorem timestamp_bundling_waiver (addons : List String)
    (hts : "timestamp" ∈ addons) :
    ("audio_video" ∈ addons →
      calculateRecordingAddons addons =
        calculateRecordingAddons (addons.erase "timestamp")) ∧
    ("audio_video" ∉ addons →
      calculateRecordingAddons addons =
        calculateRecordingAddons (addons.erase "timestamp") +
          PRICING.recording_timestamp) := by
  constructor
  · intro hAV
    have hAV' : "audio_video" ∈ addons.erase "timestamp" :=
      (List.mem_erase_of_ne (by decide)).2 hAV
    have hc : addons.contains "audio_video" = true := by simpa using hAV
    have hc' : (addons.erase "timestamp").contains "audio_video" = true := by
      simpa using hAV'
    simp only [calculateRecordingAddons, hc, hc']
    rw [← List.sum_map_erase (recordingAddonPrice true) hts]
    simp [recordingAddonPrice]
  · intro hAV
    have hAV' : "audio_video" ∉ addons.erase "timestamp" := fun h =>
      hAV (List.mem_of_mem_erase h)
    have hc : addons.contains "audio_video" = false := by simpa using hAV
    have hc' : (addons.erase "timestamp").contains "audio_video" = false := by
      simpa using hAV'
    simp only [calculateRecordingAddons, hc, hc']
    rw [← List.sum_map_erase (recordingAddonPrice false) hts]
    simp [recordingAddonPrice]
    ring

theorem timestamp_bundling_waiver_witness :
    ("timestamp" ∈ ["audio", "timestamp"] ∧
      calculateRecordingAddons ["audio", "timestamp"] =
        calculateRecordingAddons (["audio", "timestamp"].erase "timestamp") +
          PRICING.recording_timestamp) ∧
    calculateRecordingAddons ["audio", "timestamp"] = 198 :=
  ⟨⟨by decide,
      (timestamp_bundling_waiver ["audio", "timestamp"] (by decide)).2
        (by decide)⟩,
    by
      simp [calculateRecordingAddons, recordingAddonPrice,
        PRICING.recording_audio, PRICING.recording_timestamp]
      norm_num⟩

/-- C4: for serviceType=apostille, region=nj, numDocuments=3, standard
urgency, pickup delivery, the engine produces an additional-documents
line of 2 * 447 * 0.85 = 759.90 and a total of 1206.90, computed in
exact arithmetic. -/
theorem apostille_scenario_quote :
    (calculateQuote scenario1Selection).additionalDocsPrice =
      2 * 447 * 0.85 ∧
    documentsSegment (calculateQuote scenario1Selection) =
      [⟨"Additional Documents (" ++ toString (2 : Int) ++ ")", 759.90⟩] ∧
    (calculateQuote scenario1Selection).total = 1206.90 := by
  refine ⟨?_, ?_, ?_⟩ <;>
    simp [calculateQuote, Quote.total, documentsSegment, scenario1Selection,
      Selection.numDocs, Selection.urgency, Selection.delivery,
      Selection.sessionHours, PRICING.apostille,
      PRICING.additionalDocDiscount, PRICING.urgency, PRICING.delivery,
      getRegionName] <;>
    norm_num

/-- C5: for serviceType=remote_deposition, sessionHours=6,
addons={audio_video}, remoteUrgency={rush_booking}, the engine produces
a session-overage line of (6-4)*150 = 300, a recording line of 199, a
booking/timing line of 125, and a total of 1273.00. -/
theorem remote_scenario_quote :
    (calculateQuote scenario3Selection).sessionOveragePrice =
      (6 - 4) * 150 ∧
    (calculateQuote scenario3Selection).recordingPrice = 199 ∧
    (calculateQuote scenario3Selection).bookingUrgencyPrice = 125 ∧
    quoteLines (calculateQuote scenario3Selection) =
      [⟨"Remote Deposition Support", 649⟩, ⟨"Session Overage", 300⟩,
        ⟨"Recording Add-ons", 199⟩, ⟨"Booking/Timing Fees", 125⟩] ∧
    (calculateQuote scenario3Selection).total = 1273.00 := by
  refine ⟨?_, ?_, ?_, ?_, ?_⟩ <;>
    simp [calculateQuote, Quote.total, quoteLines, documentsSegment,
      surchargeLine, scenario3Selection, Selection.numDocs,
      Selection.urgency, Selection.delivery, Selection.sessionHours,
      calculateRecordingAddons, calculateComplexityAddons,
      calculateRemoteUrgency, recordingAddonPrice, PRICING.complexity,
      PRICING.remoteUrgency, PRICING.recording_audio_video,
      PRICING.remote_base, PRICING.remote_overagePerHour] <;>
    norm_num

/-- C6: requesting an advance from step 1 with serviceType=apostille and
region unset is rejected: the step is unchanged and the
validation-failure signal names region as the offending field (the
handler returns instead of throwing); after region is set, the same
advance request succeeds. -/
theorem advance_step1_region_validation :
    advanceFromStep1
        { currentStep := 1, selection := { serviceType := "apostille" } } 2 =
      ({ currentStep := 1, selection := { serviceType := "apostille" } },
        ["region"]) ∧
    advanceFromStep1
        { currentStep := 1,
          selection := { serviceType := "apostille", region := "nj" } } 2 =
      ({ currentStep := 2,
          selection := { serviceType := "apostille", region := "nj" } },
        []) := by
  constructor <;>
    simp [advanceFromStep1, validateStep1, step1RequiredVisibleFields,
      step1FieldValue]

/-- C7: for every serviceType outside the declared enumeration (the
empty initial value included), the engine returns a Quote whose every
line amount and total are 0 and whose service label is the empty
placeholder, without failing. -/
theorem unknown_serviceType_zero_quote (sel : Selection)
    (h : sel.serviceType ∉ ["apostille", "poa", "trust", "loan", "hospital",
      "remote", "recording_only", "certified_reporter"]) :
    (calculateQuote sel).serviceName = "" ∧
    (calculateQuote sel).total = 0 ∧
    ∀ line ∈ quoteLines (calculateQuote sel), line.amount = 0 := by
  simp only [List.mem_cons, List.not_mem_nil, or_false, not_or] at h
  obtain ⟨h1, h2, h3, h4, h5, h6, h7, h8⟩ := h
  refine ⟨?_, ?_, ?_⟩ <;>
    simp [calculateQuote, Quote.total, quoteLines, documentsSegment,
      surchargeLine, h1, h2, h3, h4, h5, h6, h7, h8]
  split_ifs <;> simp

theorem unknown_serviceType_zero_quote_witness :
    (("" : String) ∉ ["apostille", "poa", "trust", "loan", "hospital",
      "remote", "recording_only", "certified_reporter"]) ∧
    ((calculateQuote {}).serviceName = "" ∧
      (calculateQuote {}).total = 0 ∧
      ∀ line ∈ quoteLines (calculateQuote {}), line.amount = 0) :=
  ⟨by decide, unknown_serviceType_zero_quote {} (by decide)⟩

set_option maxHeartbeats 1000000 in
/-- C8: for every numDocuments input that does not parse to a positive
integer (unparseable, zero, or negative), the engine produces the same
rendered Quote — same line labels and amounts, and same total — as it
does for numDocuments = 1. -/
theorem nonpositive_numDocs_defaults_to_one (sel : Selection)
    (h : sel.numDocsParsed = none ∨
      ∃ n : Int, n ≤ 0 ∧ sel.numDocsParsed = some n) :
    quoteLines (calculateQuote sel) =
      quoteLines (calculateQuote { sel with numDocsParsed := some 1 }) ∧
    (calculateQuote sel).total =
      (calculateQuote { sel with numDocsParsed := some 1 }).total := by
  have hle : sel.numDocs ≤ 1 := by
    rcases h with h | ⟨n, hn, h⟩ <;> simp [Selection.numDocs, h]
    split_ifs <;> omega
  have h1' : Selection.numDocs { sel with numDocsParsed := some 1 } =
      (1 : Int) := by
    simp [Selection.numDocs]
  have eu : Selection.urgency { sel with numDocsParsed := some 1 } =
      sel.urgency := rfl
  have ed : Selection.delivery { sel with numDocsParsed := some 1 } =
      sel.delivery := rfl
  have eh : Selection.sessionHours { sel with numDocsParsed := some 1 } =
      sel.sessionHours := rfl
  refine ⟨?_, ?_⟩ <;>
    simp only [calculateQuote, Quote.total, h1', eu, ed, eh] <;>
    split_ifs <;>
    simp_all [quoteLines, documentsSegment, surchargeLine, not_lt.mpr hle]

theorem nonpositive_numDocs_defaults_to_one_witness :
    (({ serviceType := "poa", numDocsParsed := some (-3) } :
        Selection).numDocsParsed = none ∨
      ∃ n : Int, n ≤ 0 ∧
        ({ serviceType := "poa", numDocsParsed := some (-3) } :
          Selection).numDocsParsed = some n) ∧
    (quoteLines (calculateQuote
        { serviceType := "poa", numDocsParsed := some (-3) }) =
      quoteLines (calculateQuote
        { serviceType := "poa", numDocsParsed := some 1 }) ∧
    (calculateQuote
        { serviceType := "poa", numDocsParsed := some (-3) }).total =
      (calculateQuote
        { serviceType := "poa", numDocsParsed := some 1 }).total) :=
  ⟨Or.inr ⟨-3, by norm_num, rfl⟩,
    nonpositive_numDocs_defaults_to_one
      { serviceType := "poa", numDocsParsed := some (-3) }
      (Or.inr ⟨-3, by norm_num, rfl⟩)⟩

/-- C9: for serviceType=remote_deposition the rendered Quote is
independent of numDocuments, the standard urgency radio, and the
delivery radio: varying those three fields changes no line and not the
total. -/
theorem remote_quote_frame_independence (sel : Selection)
    (h : sel.serviceType = "remote") (nd : Option Int)
    (u d : Option String) :
    quoteLines (calculateQuote
        { sel with
            numDocsParsed := nd
            urgencyChecked := u
            deliveryChecked := d }) = quoteLines (calculateQuote sel) ∧
    (calculateQuote
        { sel with
            numDocsParsed := nd
            urgencyChecked := u
            deliveryChecked := d }).total = (calculateQuote sel).total := by
  refine ⟨?_, ?_⟩ <;>
    simp [calculateQuote, Quote.total, quoteLines, documentsSegment,
      surchargeLine, h, Selection.sessionHours]

theorem remote_quote_frame_independence_witness :
    (({ serviceType := "remote", addons := ["audio"] } :
        Selection).serviceType = "remote") ∧
    (quoteLines (calculateQuote
        { serviceType := "remote"
          addons := ["audio"]
          numDocsParsed := some 7
          urgencyChecked := some "rush"
          deliveryChecked := some "express" }) =
      quoteLines (calculateQuote
        { serviceType := "remote", addons := ["audio"] }) ∧
    (calculateQuote
        { serviceType := "remote"
          addons := ["audio"]
          numDocsParsed := some 7
          urgencyChecked := some "rush"
          deliveryChecked := some "express" }).total =
      (calculateQuote
        { serviceType := "remote", addons := ["audio"] }).total) :=
  ⟨rfl,
    remote_quote_frame_independence
      { serviceType := "remote", addons := ["audio"] } rfl
      (some 7) (some "rush") (some "express")⟩

/-- C10: for every selection whose serviceType is one of apostille, poa,
trust, loan, hospital, with region, numDocuments, locationType, urgency
and delivery inside the declared enumerations, the older duplicated
calculator (src/unnamed/part_001) computes the same quote total as
src/app.js. -/
theorem legacy_calculator_total_agreement (sel : Selection)
    (hsvc : sel.serviceType ∈
      ["apostille", "poa", "trust", "loan", "hospital"])
    (_hreg : sel.region ∈ ["nj", "dmv", "tn", "swva", "federal"])
    (_hnd : 0 < sel.numDocs)
    (_hloc : sel.locationType ∈ ["office", "mobile", "hospital"])
    (_hurg : sel.urgency ∈ ["standard", "expedited", "rush"])
    (_hdel : sel.delivery ∈
      ["pickup", "standard_mail", "express", "international"]) :
    (legacyCalculateQuote sel).total = (calculateQuote sel).total := by
  simp only [List.mem_cons, List.not_mem_nil, or_false] at hsvc
  rcases hsvc with h | h | h | h | h <;>
    simp only [legacyCalculateQuote, calculateQuote, LegacyQuote.total,
      Quote.total, h] <;>
    split_ifs <;> simp

theorem legacy_calculator_total_agreement_witness :
    (({ serviceType := "apostille"
        region := "nj"
        numDocsParsed := some 2
        urgencyChecked := some "expedited"
        deliveryChecked := some "express"
        locationType := "office" } :
        Selection).serviceType ∈
        ["apostille", "poa", "trust", "loan", "hospital"] ∧
      0 < ({ serviceType := "apostille"
             region := "nj"
             numDocsParsed := some 2
             urgencyChecked := some "expedited"
             deliveryChecked := some "express"
             locationType := "office" } :
        Selection).numDocs) ∧
    (legacyCalculateQuote
        { serviceType := "apostille"
          region := "nj"
          numDocsParsed := some 2
          urgencyChecked := some "expedited"
          deliveryChecked := some "express"
          locationType := "office" }).total =
      (calculateQuote
        { serviceType := "apostille"
          region := "nj"
          numDocsParsed := some 2
          urgencyChecked := some "expedited"
          deliveryChecked := some "express"
          locationType := "office" }).total :=
  ⟨⟨by decide, by decide⟩,
    legacy_calculator_total_agreement
      { serviceType := "apostille"
        region := "nj"
        numDocsParsed := some 2
        urgencyChecked := some "expedited"
        deliveryChecked := some "express"
        locationType := "office" }
      (by decide) (by decide) (by decide) (by decide)
      (by decide) (by decide)⟩

end CommonApostille
